import Mathlib

/-!
# Verification of the vlite Player core and Vlitejs shell

Shallow embedding of `src/vlite/js/player.ts`, the construction-time option
logic of `src/vlite/js/vlite.ts`, and the keyboard volume handlers, translated
from the TypeScript source.  Player methods become pure functions from a
`PlayerState` to a new state paired with a trace of outward effects (adapter
calls, dispatched events, host-shell calls).  Asynchronous adapter queries are
passed in as already-settled promise outcomes (`Except`/`POutcome` values);
DOM nodes that may be absent are `Option`s, mirroring the nullable element
references cached by the control bar.
-/

namespace Vlite

/-- JavaScript truthiness of a nullable boolean (`null` and `false` are falsy). -/
def optBoolTruthy : Option Bool → Bool
  | none => false
  | some b => b

/-- JavaScript truthiness of a nullable string (`null` and `""` are falsy),
used for the `options.poster` check in `onVideoEnded`. -/
def optStrTruthy : Option String → Bool
  | none => false
  | some s => s != ""

/-! ## DOM classList model

`classList.add` does not duplicate an existing token, `remove` deletes it,
`replace` substitutes the new token only when the old one is present. -/

def classAdd (l : List String) (c : String) : List String :=
  if c ∈ l then l else l ++ [c]

def classRemove (l : List String) (c : String) : List String :=
  l.filter (· ≠ c)

def classReplace (l : List String) (o n : String) : List String :=
  if o ∈ l then classAdd (classRemove l o) n else l

/-! ## Data model of the Player (from `player.ts`) -/

/-- The cached `.v-progressBar` input element: its `value` property, the
`--value` CSS custom property, and the `aria-valuenow` attribute. -/
structure ProgressBarEl where
  value : String
  cssValue : String
  ariaValuenow : Option String
  deriving DecidableEq, Repr

/-- The element references held in `Player.elements`.  Every nullable node is
an `Option`; the container always exists. -/
structure Elements where
  containerClasses : List String
  posterClasses : Option (List String)
  progressBar : Option ProgressBarEl
  currentTimeText : Option String
  volumeClasses : Option (List String)
  fullscreenClasses : Option (List String)
  playPauseAria : Option String
  bigPlayAria : Option String
  deriving DecidableEq, Repr

/-- The merged options the Player methods read (`Options` in the source has
further fields that only affect control-bar template rendering). -/
structure Options where
  autoplay : Bool
  controls : Bool
  time : Bool
  loop : Bool
  muted : Bool
  poster : Option String
  deriving DecidableEq, Repr

/-- Playback state and environment of a `Player` instance.  The `media…` and
`document…` booleans model the truthiness of the dynamic capability lookups
(`this.media[requestFn]`, `document[cancelFn]`, `this.media.muted`), and
`onReadyIsFunction` the `onReady instanceof Function` check.  Listeners in the
custom-event registry are identified by numeric ids. -/
structure PlayerState where
  typ : String
  options : Options
  isFullScreen : Bool
  isMuted : Bool
  isPaused : Option Bool
  customEvents : List (String × List Nat)
  elements : Elements
  mediaMuted : Bool
  mediaRequestFnAvailable : Bool
  documentCancelFnAvailable : Bool
  autoHideGranted : Bool
  onReadyIsFunction : Bool
  deriving DecidableEq, Repr

/-- Calls forwarded to the active backend adapter. -/
inductive AdapterCall where
  | methodPlay
  | methodPause
  | methodSetVolume (v : ℚ)
  | methodMute
  | methodUnMute
  | methodSeekTo (t : ℚ)
  deriving DecidableEq, Repr

/-- Outward effects of a Player method, in program order: adapter calls,
`dispatchEvent` calls (by event kind), and calls into the host shell or the
native fullscreen API. -/
inductive Effect where
  | adapter (c : AdapterCall)
  | event (kind : String)
  | stopAutoHideTimer
  | startAutoHideTimer
  | nativeRequestFullscreen
  | nativeExitFullscreen
  | controlBarOnPlayerReady
  | controlBarRemoveEvents
  | onReadyCallback
  | containerRemove
  deriving DecidableEq, Repr

/-- Outcome of a JavaScript promise as eventually observed by its consumers:
settled with a value, settled by rejection, or forever pending (never settles). -/
inductive POutcome (α : Type) where
  | resolved (a : α)
  | rejected
  | pending
  deriving DecidableEq, Repr

/-- Lookup in the `customEvents` registry (a JavaScript object keyed by event
kind, modelled as an association list in key-insertion order). -/
def evtLookup : List (String × List Nat) → String → Option (List Nat)
  | [], _ => none
  | (k, ls) :: rest, t => if k = t then some ls else evtLookup rest t

/-- Replace the listener array stored under a key of the registry. -/
def evtUpdate : List (String × List Nat) → String → List Nat → List (String × List Nat)
  | [], _, _ => []
  | (k, ls) :: rest, t, new =>
      if k = t then (k, new) :: rest else (k, ls) :: evtUpdate rest t new

namespace Player

/-- `Player` constructor state (from `player.ts` lines 43-72): fullscreen off,
muted mirrors the option, `isPaused` starts `null`, empty event registry. -/
def construct (typ : String) (options : Options) (elements : Elements)
    (mediaMuted mediaRequestFnAvailable documentCancelFnAvailable
      autoHideGranted onReadyIsFunction : Bool) : PlayerState :=
  { typ := typ
    options := options
    isFullScreen := false
    isMuted := options.muted
    isPaused := none
    customEvents := []
    elements := elements
    mediaMuted := mediaMuted
    mediaRequestFnAvailable := mediaRequestFnAvailable
    documentCancelFnAvailable := documentCancelFnAvailable
    autoHideGranted := autoHideGranted
    onReadyIsFunction := onReadyIsFunction }

/-- `setVolume(volume)`: clamp above `1` to `1`; at or below `0` clamp to `0`
and set `isMuted`, pressing the volume control; otherwise clear `isMuted` and
the pressed state and forward the input unchanged.  In every branch the final
two statements run: `methodSetVolume(volume)` then `dispatchEvent('volumechange')`. -/
def setVolume (s : PlayerState) (volume : ℚ) : PlayerState × List Effect :=
  if 1 < volume then
    (s, [.adapter (.methodSetVolume 1), .event "volumechange"])
  else if volume ≤ 0 then
    ({ s with isMuted := true
              elements := { s.elements with
                volumeClasses := s.elements.volumeClasses.map (classAdd · "v-pressed") } },
      [.adapter (.methodSetVolume 0), .event "volumechange"])
  else
    ({ s with isMuted := false
              elements := { s.elements with
                volumeClasses := s.elements.volumeClasses.map (classRemove · "v-pressed") } },
      [.adapter (.methodSetVolume volume), .event "volumechange"])

/-- `on(type, listener)`: only when the listener is a function, create the
kind's (empty) listener array if absent, then push the listener.  Listeners
are identified by numeric ids. -/
def «on» (s : PlayerState) (type : String) (listenerIsFunction : Bool)
    (listener : Nat) : PlayerState :=
  if listenerIsFunction then
    let m := if (evtLookup s.customEvents type).isNone
             then s.customEvents ++ [(type, [])] else s.customEvents
    { s with customEvents := evtUpdate m type (((evtLookup m type).getD []) ++ [listener]) }
  else s

/-- `dispatchEvent(type)`: when the kind is a key of the registry, invoke its
listeners in array order; otherwise do nothing.  Returns the ids of the
invoked listeners in invocation order; the state is untouched and no error is
raised in either case. -/
def dispatchEvent (s : PlayerState) (type : String) : List Nat :=
  match evtLookup s.customEvents type with
  | some ls => ls
  | none => []

/-- `afterPlayPause()`: with the auto-hide grant, stop the timer and restart
it unless `isPaused` is truthy (`null` counts as falsy, as in the source's
`!this.isPaused`). -/
def afterPlayPause (s : PlayerState) : List Effect :=
  if s.autoHideGranted then
    .stopAutoHideTimer ::
      (if optBoolTruthy s.isPaused then [] else [Effect.startAutoHideTimer])
  else []

/-- `play()`: on first start clear the `v-firstStart` flag and (video only)
hide the poster; call the adapter's `methodPlay`; set `isPaused := false`;
swap the container to `v-playing`; update accessible labels; run the
auto-hide handshake; dispatch `play`. -/
def play (s : PlayerState) : PlayerState × List Effect :=
  let s :=
    if s.elements.containerClasses.contains "v-firstStart" then
      let e := { s.elements with
        containerClasses := classRemove s.elements.containerClasses "v-firstStart" }
      let e :=
        if s.typ = "video" && e.posterClasses.isSome then
          { e with posterClasses := e.posterClasses.map (classRemove · "v-active") }
        else e
      { s with elements := e }
    else s
  let s := { s with isPaused := some false }
  let s := { s with elements := { s.elements with
    containerClasses := classReplace s.elements.containerClasses "v-paused" "v-playing"
    playPauseAria := s.elements.playPauseAria.map (fun _ => "Pause") } }
  let s :=
    if s.typ = "video" then
      { s with elements := { s.elements with
        bigPlayAria := s.elements.bigPlayAria.map (fun _ => "Pause") } }
    else s
  (s, .adapter .methodPlay :: afterPlayPause s ++ [.event "play"])

/-- `pause()`: call the adapter's `methodPause`; set `isPaused := true`; swap
the container to `v-paused`; update accessible labels; run the auto-hide
handshake; dispatch `pause`. -/
def pause (s : PlayerState) : PlayerState × List Effect :=
  let s := { s with isPaused := some true }
  let s := { s with elements := { s.elements with
    containerClasses := classReplace s.elements.containerClasses "v-playing" "v-paused"
    playPauseAria := s.elements.playPauseAria.map (fun _ => "Play") } }
  let s :=
    if s.typ = "video" then
      { s with elements := { s.elements with
        bigPlayAria := s.elements.bigPlayAria.map (fun _ => "Play") } }
    else s
  (s, .adapter .methodPause :: afterPlayPause s ++ [.event "pause"])

/-- `mute()`: adapter `methodMute`, set `isMuted`, press the volume control,
dispatch `volumechange`. -/
def mute (s : PlayerState) : PlayerState × List Effect :=
  let s := { s with isMuted := true
                    elements := { s.elements with
                      volumeClasses := s.elements.volumeClasses.map (classAdd · "v-pressed") } }
  (s, [.adapter .methodMute, .event "volumechange"])

/-- `unMute()`: adapter `methodUnMute`, clear `isMuted`, release the volume
control, dispatch `volumechange`. -/
def unMute (s : PlayerState) : PlayerState × List Effect :=
  let s := { s with isMuted := false
                    elements := { s.elements with
                      volumeClasses := s.elements.volumeClasses.map (classRemove · "v-pressed") } }
  (s, [.adapter .methodUnMute, .event "volumechange"])

/-- `seekTo(newTime)`: forwards directly to the adapter's `methodSeekTo`. -/
def seekTo (s : PlayerState) (newTime : ℚ) : PlayerState × List Effect :=
  (s, [.adapter (.methodSeekTo newTime)])

/-- `Player.loading(status)` bridges to `Vlitejs.loading(status)`, which adds
or removes the container's `v-loading` class and dispatches `progress`. -/
def loading (s : PlayerState) (status : Bool) : PlayerState × List Effect :=
  let s := { s with elements := { s.elements with
    containerClasses :=
      if status then classAdd s.elements.containerClasses "v-loading"
      else classRemove s.elements.containerClasses "v-loading" } }
  (s, [.event "progress"])

/-- `onPlayerReady()`: with the autoplay option, first mute when the media
element is not already muted, then play; in every case clear the loading
state, notify the control bar when controls are enabled, and invoke the
host's `onReady` callback when it is a function. -/
def onPlayerReady (s : PlayerState) : PlayerState × List Effect :=
  let r1 :=
    if s.options.autoplay then
      let ra := if !s.mediaMuted then mute s else (s, [])
      let rb := play ra.1
      (rb.1, ra.2 ++ rb.2)
    else (s, [])
  let r2 := loading r1.1 false
  let fx3 := if r2.1.options.controls then [Effect.controlBarOnPlayerReady] else []
  let fx4 := if r2.1.onReadyIsFunction then [Effect.onReadyCallback] else []
  (r2.1, r1.2 ++ r2.2 ++ fx3 ++ fx4)

/-- Abstraction of JavaScript number-to-string coercion (template-literal
interpolation) for the progress width.  On integers it agrees with
JavaScript; the claims never depend on the rendering of non-integers, only on
which writes happen. -/
def jsNumToString (q : ℚ) : String :=
  if q.den = 1 then toString q.num else toString q.num ++ "/" ++ toString q.den

/-- Modelled from the spec: `formatVideoTime` lives in `shared/utils/utils`,
which is not among the sources; §1 treats time formatting as an out-of-scope
external collaborator.  Modelled as zero-padded `minutes:seconds` of a
whole-second count; no claim depends on its output. -/
def formatVideoTime (t : ℤ) : String :=
  let n := t.toNat
  let pad := fun (k : Nat) => if k < 10 then "0" ++ toString k else toString k
  pad (n / 60) ++ ":" ++ pad (n % 60)

/-- `onTimeUpdate()`: only when the `time` option is enabled, join the
adapter's current-time and duration futures (`Promise.all`).  The settled
outcomes of the two fetches are passed in as `Except` values.  When both
resolve, the fulfilment callback rounds the time, updates the progress bar
(value, `--value` property, `aria-valuenow`) and the current-time label when
present, and dispatches `timeupdate`.  When either rejects, the join rejects
and — there being no rejection handler — the callback is skipped: no DOM
write, no event, and nothing is thrown back into the caller (the function
returns normally with the state unchanged). -/
def onTimeUpdate (s : PlayerState) (getCurrentTime getDuration : Except Unit ℚ) :
    PlayerState × List Effect :=
  if s.options.time then
    match getCurrentTime, getDuration with
    | .ok seconds, .ok duration =>
        let currentTime : ℤ := round seconds
        let s :=
          match s.elements.progressBar with
          | some _ =>
              let width : ℚ := ((currentTime : ℚ) * 100) / duration
              { s with elements := { s.elements with
                progressBar := some
                  { value := jsNumToString width
                    cssValue := jsNumToString width ++ "%"
                    ariaValuenow := some (toString (round seconds)) } } }
          | none => s
        let s :=
          match s.elements.currentTimeText with
          | some _ => { s with elements := { s.elements with
                          currentTimeText := some (formatVideoTime currentTime) } }
          | none => s
        (s, [.event "timeupdate"])
    | _, _ => (s, [])
  else (s, [])

/-- `onVideoEnded()`: with the `loop` option, replay via `play()`; otherwise
swap the container back to `v-paused` and re-add `v-firstStart`.  Then —
unconditionally — re-show the poster when configured and present, reset the
progress bar to `"0"` (removing `aria-valuenow`), reset the time label to
`"00:00"`, and dispatch `ended`. -/
def onVideoEnded (s : PlayerState) : PlayerState × List Effect :=
  let r :=
    if s.options.loop then play s
    else
      ({ s with elements := { s.elements with
          containerClasses :=
            classAdd (classReplace s.elements.containerClasses "v-playing" "v-paused")
              "v-firstStart" } }, [])
  let s := r.1
  let s :=
    if optStrTruthy s.options.poster && s.elements.posterClasses.isSome then
      { s with elements := { s.elements with
          posterClasses := s.elements.posterClasses.map (classAdd · "v-active") } }
    else s
  let s :=
    match s.elements.progressBar with
    | some _ => { s with elements := { s.elements with
                    progressBar := some { value := "0", cssValue := "0%", ariaValuenow := none } } }
    | none => s
  let s :=
    match s.elements.currentTimeText with
    | some _ => { s with elements := { s.elements with currentTimeText := some "00:00" } }
    | none => s
  (s, r.2 ++ [.event "ended"])

/-- `getVolume()`: returns `new Promise(resolve => methodGetVolume().then(v =>
resolve(v)))`.  The executor invokes `resolve` only inside the fulfilment
continuation of the adapter query and never invokes `reject`, so the returned
promise resolves exactly when the query resolves and otherwise stays pending
forever. -/
def getVolume (methodGetVolume : POutcome ℚ) : POutcome ℚ :=
  match methodGetVolume with
  | .resolved v => .resolved v
  | .rejected => .pending
  | .pending => .pending

/-- `requestFullscreen()`: only when the request function is present on the
media element, call it on the container, set `isFullScreen`, add the
`v-fullscreenButton-display` container class, press the fullscreen control,
and dispatch `enterfullscreen`; otherwise the method does nothing at all. -/
def requestFullscreen (s : PlayerState) : PlayerState × List Effect :=
  if s.mediaRequestFnAvailable then
    let s := { s with isFullScreen := true
                      elements := { s.elements with
                        containerClasses :=
                          classAdd s.elements.containerClasses "v-fullscreenButton-display"
                        fullscreenClasses :=
                          s.elements.fullscreenClasses.map (classAdd · "v-pressed") } }
    (s, [.nativeRequestFullscreen, .event "enterfullscreen"])
  else (s, [])

/-- `exitFullscreen({escKey})`: only when the cancel function is present on
the document; the native cancel call is suppressed when the escape key
already left fullscreen; local state, visuals and the `exitfullscreen`
dispatch always run. -/
def exitFullscreen (s : PlayerState) (escKey : Bool) : PlayerState × List Effect :=
  if s.documentCancelFnAvailable then
    let fx := if !escKey then [Effect.nativeExitFullscreen] else []
    let s := { s with isFullScreen := false
                      elements := { s.elements with
                        containerClasses :=
                          classRemove s.elements.containerClasses "v-fullscreenButton-display"
                        fullscreenClasses :=
                          s.elements.fullscreenClasses.map (classRemove · "v-pressed") } }
    (s, fx ++ [.event "exitfullscreen"])
  else (s, [])

/-- `destroy()`: pause, detach the control-bar listeners when controls are
enabled, delete every key of the event registry, remove the container. -/
def destroy (s : PlayerState) : PlayerState × List Effect :=
  let r := pause s
  let fx2 := if r.1.options.controls then [Effect.controlBarRemoveEvents] else []
  let s := { r.1 with customEvents := [] }
  (s, r.2 ++ fx2 ++ [.containerRemove])

/-- The operations a constructed `Player` can undergo after construction
(its public methods and adapter-driven callbacks).  Asynchronous inputs of an
operation (settled fetch outcomes) are carried as arguments. -/
inductive Op where
  | play
  | pause
  | setVolume (v : ℚ)
  | mute
  | unMute
  | seekTo (t : ℚ)
  | onVideoEnded
  | onPlayerReady
  | onTimeUpdate (ct dur : Except Unit ℚ)
  | requestFullscreen
  | exitFullscreen (escKey : Bool)
  | «on» (type : String) (isFn : Bool) (listener : Nat)
  | dispatchEvent (type : String)
  | loading (status : Bool)
  | destroy

/-- One step of the Player state machine: run the named operation. -/
def step (s : PlayerState) : Op → PlayerState × List Effect
  | .play => play s
  | .pause => pause s
  | .setVolume v => setVolume s v
  | .mute => mute s
  | .unMute => unMute s
  | .seekTo t => seekTo s t
  | .onVideoEnded => onVideoEnded s
  | .onPlayerReady => onPlayerReady s
  | .onTimeUpdate ct dur => onTimeUpdate s ct dur
  | .requestFullscreen => requestFullscreen s
  | .exitFullscreen esc => exitFullscreen s esc
  | .«on» t fn l => («on» s t fn l, [])
  | .dispatchEvent t => (s, [.event t])
  | .loading b => loading s b
  | .destroy => destroy s

end Player

/-- `Vlitejs.increaseVolume()`: chains on `player.getVolume()`; the
continuation — which calls `setVolume(volume + 0.05)` — runs only when that
promise resolves. -/
def Vlitejs.increaseVolume (s : PlayerState) (methodGetVolume : POutcome ℚ) :
    PlayerState × List Effect :=
  match Player.getVolume methodGetVolume with
  | .resolved volume => Player.setVolume s (volume + 5/100)
  | _ => (s, [])

/-- `Vlitejs.decreaseVolume()`: chains on `player.getVolume()`; the
continuation — which calls `setVolume(volume - 0.05)` — runs only when that
promise resolves. -/
def Vlitejs.decreaseVolume (s : PlayerState) (methodGetVolume : POutcome ℚ) :
    PlayerState × List Effect :=
  match Player.getVolume methodGetVolume with
  | .resolved volume => Player.setVolume s (volume - 5/100)
  | _ => (s, [])

/-! ## Vlitejs construction: DOM attributes and option merging (`vlite.ts`)

The constructor walks `['autoplay', 'playsinline', 'muted', 'loop']` over the
*caller-supplied* options object: an attribute present on the media element
forces the option to `true`; otherwise a truthy caller option sets the
attribute.  Only afterwards are the per-kind defaults merged in underneath
(`{ ...DEFAULT_OPTIONS[type], ...options }`). -/

/-- Presence of the four mirrored attributes on the media element. -/
structure DomAttrs where
  autoplay : Bool
  playsinline : Bool
  muted : Bool
  loop : Bool
  deriving DecidableEq, Repr, Fintype

/-- The four mirrored keys of an options object; `none` means the key is
absent (so a default can supply it), `some b` that the caller set it to `b`. -/
structure MirroredOpts where
  autoplay : Option Bool
  playsinline : Option Bool
  muted : Option Bool
  loop : Option Bool
  deriving DecidableEq, Repr, Fintype

/-- The four mirrored keys of `DEFAULT_OPTIONS.video`:
`autoplay: false, playsinline: true, loop: false, muted: false`. -/
def videoDefaults : MirroredOpts :=
  { autoplay := some false, playsinline := some true
    muted := some false, loop := some false }

/-- The four mirrored keys of `DEFAULT_OPTIONS.audio`:
`autoplay: false, loop: false`; no `playsinline` or `muted` key. -/
def audioDefaults : MirroredOpts :=
  { autoplay := some false, playsinline := none
    muted := none, loop := some false }

/-- One iteration of the `domAttributes.forEach` body for a single item:
`if (media.hasAttribute(item)) options[item] = true; else if (options[item])
media.setAttribute(item, '')`. -/
def syncAttr (hasAttr : Bool) (opt : Option Bool) : Bool × Option Bool :=
  if hasAttr then (hasAttr, some true)
  else if optBoolTruthy opt then (true, opt)
  else (hasAttr, opt)

/-- Key-wise object spread `{ ...defaults, ...opts }`: a key present in
`opts` (even with value `false`) wins over the default. -/
def mergeKey (dflt opt : Option Bool) : Option Bool :=
  match opt with
  | some v => some v
  | none => dflt

namespace Vlitejs

/-- The attribute/option part of the `Vlitejs` constructor: run the
`domAttributes` loop, then merge the per-kind defaults underneath the
(possibly mutated) caller options.  Returns the final attribute presence on
the media element and the four mirrored keys of the merged `this.options`. -/
def constructOpts (isAudio : Bool) (attrs : DomAttrs) (opts : MirroredOpts) :
    DomAttrs × MirroredOpts :=
  let a := syncAttr attrs.autoplay opts.autoplay
  let p := syncAttr attrs.playsinline opts.playsinline
  let m := syncAttr attrs.muted opts.muted
  let l := syncAttr attrs.loop opts.loop
  let attrs' : DomAttrs :=
    { autoplay := a.1, playsinline := p.1, muted := m.1, loop := l.1 }
  let d := if isAudio then audioDefaults else videoDefaults
  let merged : MirroredOpts :=
    { autoplay := mergeKey d.autoplay a.2
      playsinline := mergeKey d.playsinline p.2
      muted := mergeKey d.muted m.2
      loop := mergeKey d.loop l.2 }
  (attrs', merged)

end Vlitejs

/-! ## Adapter capability contract (`player.ts` default methods) -/

/-- The capabilities of the provider contract: every one of these base-class
methods is meant to be overridden by the adapter. -/
inductive Capability where
  | init
  | waitUntilVideoIsReady
  | getInstance
  | getCurrentTime
  | methodSeekTo
  | getDuration
  | methodPlay
  | methodPause
  | methodSetVolume
  | methodGetVolume
  | methodMute
  | methodUnMute
  deriving DecidableEq, Repr, Fintype

/-- The source name of each capability method, as it appears in the thrown
message. -/
def Capability.name : Capability → String
  | .init => "init"
  | .waitUntilVideoIsReady => "waitUntilVideoIsReady"
  | .getInstance => "getInstance"
  | .getCurrentTime => "getCurrentTime"
  | .methodSeekTo => "methodSeekTo"
  | .getDuration => "getDuration"
  | .methodPlay => "methodPlay"
  | .methodPause => "methodPause"
  | .methodSetVolume => "methodSetVolume"
  | .methodGetVolume => "methodGetVolume"
  | .methodMute => "methodMute"
  | .methodUnMute => "methodUnMute"

/-! Each unimplemented base-class method is
`throw new Error('You have to implement the function "<name>".')` — a
synchronous throw (even for the promise-returning capabilities such as
`getCurrentTime`, the throw happens in the method body before any promise is
produced).  `.error msg` models the exception reaching the caller; the twelve
defaults are translated one by one from `player.ts` lines 86-176. -/

namespace Player

def initDefault : Except String Unit :=
  .error "You have to implement the function \"init\"."

def waitUntilVideoIsReadyDefault : Except String Unit :=
  .error "You have to implement the function \"waitUntilVideoIsReady\"."

def getInstanceDefault : Except String Unit :=
  .error "You have to implement the function \"getInstance\"."

def getCurrentTimeDefault : Except String Unit :=
  .error "You have to implement the function \"getCurrentTime\"."

def methodSeekToDefault : Except String Unit :=
  .error "You have to implement the function \"methodSeekTo\"."

def getDurationDefault : Except String Unit :=
  .error "You have to implement the function \"getDuration\"."

def methodPlayDefault : Except String Unit :=
  .error "You have to implement the function \"methodPlay\"."

def methodPauseDefault : Except String Unit :=
  .error "You have to implement the function \"methodPause\"."

def methodSetVolumeDefault : Except String Unit :=
  .error "You have to implement the function \"methodSetVolume\"."

def methodGetVolumeDefault : Except String Unit :=
  .error "You have to implement the function \"methodGetVolume\"."

def methodMuteDefault : Except String Unit :=
  .error "You have to implement the function \"methodMute\"."

def methodUnMuteDefault : Except String Unit :=
  .error "You have to implement the function \"methodUnMute\"."

end Player

/-- Invoking the base-class method of a capability. -/
def Capability.defaultMethod : Capability → Except String Unit
  | .init => Player.initDefault
  | .waitUntilVideoIsReady => Player.waitUntilVideoIsReadyDefault
  | .getInstance => Player.getInstanceDefault
  | .getCurrentTime => Player.getCurrentTimeDefault
  | .methodSeekTo => Player.methodSeekToDefault
  | .getDuration => Player.getDurationDefault
  | .methodPlay => Player.methodPlayDefault
  | .methodPause => Player.methodPauseDefault
  | .methodSetVolume => Player.methodSetVolumeDefault
  | .methodGetVolume => Player.methodGetVolumeDefault
  | .methodMute => Player.methodMuteDefault
  | .methodUnMute => Player.methodUnMuteDefault

/-! ## Concrete sample states used by witnesses and counterexamples -/

/-- A video option set: no autoplay, controls on, time display on, no loop,
not muted, no poster. -/
def demoOptions : Options :=
  { autoplay := false, controls := true, time := true
    loop := false, muted := false, poster := none }

/-- A full element set as cached after a control-bar render, mid-playback. -/
def demoElements : Elements :=
  { containerClasses := ["v-vlite", "v-styleVideo", "v-playing"]
    posterClasses := some ["v-poster"]
    progressBar := some { value := "42", cssValue := "42%", ariaValuenow := some "84" }
    currentTimeText := some "01:24"
    volumeClasses := some []
    fullscreenClasses := some []
    playPauseAria := some "Pause"
    bigPlayAria := some "Pause" }

/-- A freshly constructed video player (before readiness), no autoplay. -/
def freshState : PlayerState :=
  Player.construct "video" demoOptions
    { demoElements with
      containerClasses := ["v-vlite", "v-firstStart", "v-paused", "v-loading", "v-styleVideo"] }
    false false false false false

/-- A playing video player whose readiness has passed (`isPaused` boolean). -/
def playingState : PlayerState :=
  { freshState with
    isPaused := some false
    elements := demoElements }

/-- A playing video player with the `loop` option and a configured poster. -/
def loopPosterState : PlayerState :=
  { playingState with
    options := { demoOptions with loop := true, poster := some "poster.jpg" } }

end Vlite

/-- C1: For every volume input `v`, `Player.setVolume(v)` forwards to the
adapter a clamped value in `[0,1]`: if `v > 1` the forwarded value is exactly
`1`; if `v ≤ 0` the forwarded value is exactly `0` and `isMuted` becomes true;
if `0 < v ≤ 1` the forwarded value is `v` and `isMuted` becomes false; and in
every case exactly one `volumechange` event is dispatched. -/
theorem C1_setVolume_clamps (s : Vlite.PlayerState) (v : ℚ) :
    ∃ w : ℚ, (Vlite.Player.setVolume s v).2 =
        [.adapter (.methodSetVolume w), .event "volumechange"] ∧
      0 ≤ w ∧ w ≤ 1 ∧
      (1 < v → w = 1) ∧
      (v ≤ 0 → w = 0 ∧ (Vlite.Player.setVolume s v).1.isMuted = true) ∧
      (0 < v → v ≤ 1 → w = v ∧ (Vlite.Player.setVolume s v).1.isMuted = false) := by
  unfold Vlite.Player.setVolume
  by_cases h1 : 1 < v
  · refine ⟨1, by simp [h1], by norm_num, by norm_num, fun _ => rfl, ?_, ?_⟩
    · intro h0; exact absurd h1 (by linarith)
    · intro _ hle; exact absurd h1 (by linarith)
  · by_cases h0 : v ≤ 0
    · refine ⟨0, by simp [h1, h0], le_refl 0, by norm_num, ?_, ?_, ?_⟩
      · intro h; exact absurd h h1
      · exact fun _ => ⟨rfl, by simp [h1, h0]⟩
      · intro hpos _; exact absurd h0 (by linarith)
    · refine ⟨v, by simp [h1, h0], le_of_lt (not_le.mp h0), ?_, ?_, ?_, ?_⟩
      · exact le_of_not_lt h1
      · intro h; exact absurd h h1
      · intro h; exact absurd h h0
      · intro _ _; exact ⟨rfl, by simp [h1, h0]⟩

/-- Witness for C1 at `v = 1/2` on a concrete state. -/
theorem C1_setVolume_clamps_witness :
    ∃ w : ℚ, (Vlite.Player.setVolume
        (Vlite.Player.construct "video"
          ⟨false, true, true, false, false, none⟩
          ⟨["v-vlite"], none, none, none, some [], none, none, none⟩
          false false false false false) (1/2)).2 =
        [.adapter (.methodSetVolume w), .event "volumechange"] ∧
      0 ≤ w ∧ w ≤ 1 ∧
      (1 < (1/2 : ℚ) → w = 1) ∧
      ((1/2 : ℚ) ≤ 0 → w = 0 ∧ (Vlite.Player.setVolume
        (Vlite.Player.construct "video"
          ⟨false, true, true, false, false, none⟩
          ⟨["v-vlite"], none, none, none, some [], none, none, none⟩
          false false false false false) (1/2)).1.isMuted = true) ∧
      (0 < (1/2 : ℚ) → (1/2 : ℚ) ≤ 1 → w = 1/2 ∧ (Vlite.Player.setVolume
        (Vlite.Player.construct "video"
          ⟨false, true, true, false, false, none⟩
          ⟨["v-vlite"], none, none, none, some [], none, none, none⟩
          false false false false false) (1/2)).1.isMuted = false) :=
  C1_setVolume_clamps _ (1/2)

/-- C2: For every call to `Player.onTimeUpdate` with the `time` option
enabled, if either the current-time fetch or the duration fetch rejects, the
update for that tick is simply skipped: the state (hence the DOM) is left
completely unchanged and no `timeupdate` event is dispatched, and the
function returns normally — no exception reaches the caller (the rejection is
absorbed by the handler-less promise chain). -/
theorem C2_onTimeUpdate_rejection_skips_tick (s : Vlite.PlayerState)
    (ct dur : Except Unit ℚ)
    (htime : s.options.time = true)
    (hrej : ct = .error () ∨ dur = .error ()) :
    Vlite.Player.onTimeUpdate s ct dur = (s, []) := by
  rcases hrej with h | h <;> subst h
  · cases dur <;> simp [Vlite.Player.onTimeUpdate, htime]
  · cases ct <;> simp [Vlite.Player.onTimeUpdate, htime]

/-- Witness for C2: a rejected current-time fetch on a concrete state. -/
theorem C2_onTimeUpdate_rejection_skips_tick_witness :
    Vlite.playingState.options.time = true ∧
    Vlite.Player.onTimeUpdate Vlite.playingState (.error ()) (.ok 5) =
      (Vlite.playingState, []) :=
  ⟨rfl, C2_onTimeUpdate_rejection_skips_tick _ _ _ rfl (Or.inl rfl)⟩

/-- Appending a fresh key to the registry makes it found by lookup. -/
theorem evtLookup_append_of_none {m : List (String × List Nat)} {k : String}
    (x : List Nat) (h : Vlite.evtLookup m k = none) :
    Vlite.evtLookup (m ++ [(k, x)]) k = some x := by
  induction m with
  | nil => simp [Vlite.evtLookup]
  | cons p rest ih =>
      obtain ⟨k', ls⟩ := p
      by_cases hk : k' = k
      · simp [Vlite.evtLookup, hk] at h
      · simp only [Vlite.evtLookup, hk, if_false, List.cons_append] at h ⊢
        exact ih h

/-- Updating a key changes exactly that key's stored listener array. -/
theorem evtLookup_evtUpdate (m : List (String × List Nat)) (k : String)
    (new : List Nat) :
    Vlite.evtLookup (Vlite.evtUpdate m k new) k =
      (Vlite.evtLookup m k).map (fun _ => new) := by
  induction m with
  | nil => simp [Vlite.evtLookup, Vlite.evtUpdate]
  | cons p rest ih =>
      obtain ⟨k', ls⟩ := p
      by_cases hk : k' = k <;>
        simp [Vlite.evtLookup, Vlite.evtUpdate, hk, ih]

/-- A kind that is no entry's key is not found. -/
theorem evtLookup_eq_none_of_not_mem {m : List (String × List Nat)} {k : String}
    (h : ∀ p ∈ m, p.1 ≠ k) : Vlite.evtLookup m k = none := by
  induction m with
  | nil => rfl
  | cons p rest ih =>
      obtain ⟨k', ls⟩ := p
      have hk : k' ≠ k := h (k', ls) (List.mem_cons_self _ _)
      simp only [Vlite.evtLookup, hk, if_false]
      exact ih fun q hq => h q (List.mem_cons_of_mem _ hq)

/-- Key of a registry entry created or extended by `on`: dispatching the kind
invokes the previously registered listeners first, then the new one. -/
theorem dispatchEvent_on_append (s : Vlite.PlayerState) (k : String) (l : Nat) :
    Vlite.Player.dispatchEvent (Vlite.Player.«on» s k true l) k =
      Vlite.Player.dispatchEvent s k ++ [l] := by
  unfold Vlite.Player.«on» Vlite.Player.dispatchEvent
  simp only [if_true]
  rcases hm : Vlite.evtLookup s.customEvents k with _ | ls
  · simp [evtLookup_evtUpdate, evtLookup_append_of_none [] hm, hm]
  · simp [evtLookup_evtUpdate, hm]

/-- C7: For every event kind, `Player.dispatchEvent` invokes all listeners
registered for that kind via `Player.on`, in registration order (each
registration appends to the invocation list, so two listeners registered for
`timeupdate` are both invoked, first-registered first); dispatching a kind
with zero registered listeners — in particular one never registered — is a
silent no-op (no listener invoked, the registry untouched) rather than an
error. -/
theorem C7_dispatchEvent_order_and_noop :
    (∀ (s : Vlite.PlayerState) (k : String) (l1 l2 : Nat),
       Vlite.Player.dispatchEvent
         (Vlite.Player.«on» (Vlite.Player.«on» s k true l1) k true l2) k =
         Vlite.Player.dispatchEvent s k ++ [l1, l2]) ∧
    (∀ (s : Vlite.PlayerState) (k : String),
       (∀ p ∈ s.customEvents, p.1 ≠ k) → Vlite.Player.dispatchEvent s k = []) := by
  constructor
  · intro s k l1 l2
    rw [dispatchEvent_on_append, dispatchEvent_on_append, List.append_assoc]
    rfl
  · intro s k h
    simp [Vlite.Player.dispatchEvent, evtLookup_eq_none_of_not_mem h]

/-- Witness for C7: two `timeupdate` listeners on a concrete state, and a
dispatch of a never-registered kind. -/
theorem C7_dispatchEvent_order_and_noop_witness :
    Vlite.Player.dispatchEvent
      (Vlite.Player.«on» (Vlite.Player.«on» Vlite.playingState "timeupdate" true 1)
        "timeupdate" true 2) "timeupdate" =
      Vlite.Player.dispatchEvent Vlite.playingState "timeupdate" ++ [1, 2] ∧
    Vlite.Player.dispatchEvent Vlite.playingState "seeked" = [] :=
  ⟨C7_dispatchEvent_order_and_noop.1 Vlite.playingState "timeupdate" 1 2,
   C7_dispatchEvent_order_and_noop.2 Vlite.playingState "seeked" (by decide)⟩

/-- C8: If the runtime fullscreen capability is unavailable (the request
function is not present on the media element), `Player.requestFullscreen`
returns the state completely unchanged (so `isFullScreen`, container and
control visuals are untouched) and produces no effect — in particular no
`enterfullscreen` event. -/
theorem C8_requestFullscreen_unavailable_noop (s : Vlite.PlayerState)
    (h : s.mediaRequestFnAvailable = false) :
    Vlite.Player.requestFullscreen s = (s, []) := by
  simp [Vlite.Player.requestFullscreen, h]

/-- Witness for C8 on a concrete state without the capability. -/
theorem C8_requestFullscreen_unavailable_noop_witness :
    Vlite.playingState.mediaRequestFnAvailable = false ∧
    Vlite.Player.requestFullscreen Vlite.playingState = (Vlite.playingState, []) :=
  ⟨rfl, C8_requestFullscreen_unavailable_noop Vlite.playingState rfl⟩

/-- C9: For every adapter capability of the contract, invoking the default
(unimplemented) base-class method throws synchronously (models as `.error`),
and the error message names the specific missing capability: the capability's
source name occurs verbatim in the message, and distinct capabilities have
distinct names. -/
theorem C9_default_methods_throw_named :
    (∀ c : Vlite.Capability, ∃ pre post : String,
       Vlite.Capability.defaultMethod c =
         .error (pre ++ Vlite.Capability.name c ++ post)) ∧
    (∀ c c' : Vlite.Capability,
       Vlite.Capability.name c = Vlite.Capability.name c' → c = c') := by
  constructor
  · intro c
    cases c <;>
      exact ⟨"You have to implement the function \"", "\".", rfl⟩
  · decide

/-- Witness for C9 at the `getCurrentTime` capability. -/
theorem C9_default_methods_throw_named_witness :
    (∃ pre post : String,
       Vlite.Capability.defaultMethod .getCurrentTime =
         .error (pre ++ Vlite.Capability.name .getCurrentTime ++ post)) ∧
    Vlite.Capability.getCurrentTime = Vlite.Capability.getCurrentTime :=
  ⟨C9_default_methods_throw_named.1 .getCurrentTime,
   C9_default_methods_throw_named.2 .getCurrentTime .getCurrentTime rfl⟩

/-- C10 (implicit): if the adapter volume query rejects, the promise built by
`Player.getVolume` never settles (its executor calls `resolve` only in the
fulfilment continuation and never calls `reject`), so the keyboard volume
handlers chaining on it do nothing at all for that invocation: no state
change, no adapter call, no event, and no observable error. -/
theorem C10_getVolume_never_settles_on_rejection (s : Vlite.PlayerState) :
    Vlite.Player.getVolume .rejected = .pending ∧
    Vlite.Vlitejs.increaseVolume s .rejected = (s, []) ∧
    Vlite.Vlitejs.decreaseVolume s .rejected = (s, []) :=
  ⟨rfl, rfl, rfl⟩

/-- C3 counterexample: a video element with none of the four attributes and
an empty caller options object ends construction with merged
`playsinline = true` (the video default) while the `playsinline` attribute is
absent — the claimed biconditional fails. -/
theorem C3_playsinline_default_counterexample :
    (Vlite.Vlitejs.constructOpts false
        { autoplay := false, playsinline := false, muted := false, loop := false }
        { autoplay := none, playsinline := none, muted := none, loop := none }).2.playsinline
      = some true ∧
    (Vlite.Vlitejs.constructOpts false
        { autoplay := false, playsinline := false, muted := false, loop := false }
        { autoplay := none, playsinline := none, muted := none, loop := none }).1.playsinline
      = false := by decide

/-- C3 (amended): after construction, attribute presence implies the merged
option is true for all four mirrored keys; the converse (option true implies
attribute set) holds for `autoplay`, `muted` and `loop`, and for
`playsinline` only when the caller supplied it (or the element is audio) —
a `playsinline` that is true purely by the video default leaves the attribute
unset, because the attribute loop runs on the caller options before the
defaults are merged. -/
theorem C3_attr_option_consistency :
    ∀ (isAudio : Bool) (attrs : Vlite.DomAttrs) (opts : Vlite.MirroredOpts),
      ((Vlite.Vlitejs.constructOpts isAudio attrs opts).1.autoplay = true ↔
        (Vlite.Vlitejs.constructOpts isAudio attrs opts).2.autoplay = some true) ∧
      ((Vlite.Vlitejs.constructOpts isAudio attrs opts).1.muted = true ↔
        (Vlite.Vlitejs.constructOpts isAudio attrs opts).2.muted = some true) ∧
      ((Vlite.Vlitejs.constructOpts isAudio attrs opts).1.loop = true ↔
        (Vlite.Vlitejs.constructOpts isAudio attrs opts).2.loop = some true) ∧
      ((Vlite.Vlitejs.constructOpts isAudio attrs opts).1.playsinline = true →
        (Vlite.Vlitejs.constructOpts isAudio attrs opts).2.playsinline = some true) ∧
      (opts.playsinline = some true →
        (Vlite.Vlitejs.constructOpts isAudio attrs opts).1.playsinline = true) ∧
      (isAudio = true →
        ((Vlite.Vlitejs.constructOpts isAudio attrs opts).1.playsinline = true ↔
          (Vlite.Vlitejs.constructOpts isAudio attrs opts).2.playsinline = some true)) := by
  decide

/-- Witness for C3 (amended) at a concrete video construction where the
caller supplies `playsinline: true`. -/
theorem C3_attr_option_consistency_witness :
    ((Vlite.Vlitejs.constructOpts false
        { autoplay := false, playsinline := false, muted := false, loop := false }
        { autoplay := none, playsinline := some true, muted := none, loop := none }).1.autoplay = true ↔
      (Vlite.Vlitejs.constructOpts false
        { autoplay := false, playsinline := false, muted := false, loop := false }
        { autoplay := none, playsinline := some true, muted := none, loop := none }).2.autoplay = some true) ∧
    ((Vlite.Vlitejs.constructOpts false
        { autoplay := false, playsinline := false, muted := false, loop := false }
        { autoplay := none, playsinline := some true, muted := none, loop := none }).1.muted = true ↔
      (Vlite.Vlitejs.constructOpts false
        { autoplay := false, playsinline := false, muted := false, loop := false }
        { autoplay := none, playsinline := some true, muted := none, loop := none }).2.muted = some true) ∧
    ((Vlite.Vlitejs.constructOpts false
        { autoplay := false, playsinline := false, muted := false, loop := false }
        { autoplay := none, playsinline := some true, muted := none, loop := none }).1.loop = true ↔
      (Vlite.Vlitejs.constructOpts false
        { autoplay := false, playsinline := false, muted := false, loop := false }
        { autoplay := none, playsinline := some true, muted := none, loop := none }).2.loop = some true) ∧
    ((Vlite.Vlitejs.constructOpts false
        { autoplay := false, playsinline := false, muted := false, loop := false }
        { autoplay := none, playsinline := some true, muted := none, loop := none }).1.playsinline = true →
      (Vlite.Vlitejs.constructOpts false
        { autoplay := false, playsinline := false, muted := false, loop := false }
        { autoplay := none, playsinline := some true, muted := none, loop := none }).2.playsinline = some true) ∧
    ((some true : Option Bool) = some true →
      (Vlite.Vlitejs.constructOpts false
        { autoplay := false, playsinline := false, muted := false, loop := false }
        { autoplay := none, playsinline := some true, muted := none, loop := none }).1.playsinline = true) ∧
    (false = true →
      ((Vlite.Vlitejs.constructOpts false
          { autoplay := false, playsinline := false, muted := false, loop := false }
          { autoplay := none, playsinline := some true, muted := none, loop := none }).1.playsinline = true ↔
        (Vlite.Vlitejs.constructOpts false
          { autoplay := false, playsinline := false, muted := false, loop := false }
          { autoplay := none, playsinline := some true, muted := none, loop := none }).2.playsinline = some true)) :=
  C3_attr_option_consistency false
    { autoplay := false, playsinline := false, muted := false, loop := false }
    { autoplay := none, playsinline := some true, muted := none, loop := none }

/-- `play` always reports the player unpaused. -/
theorem play_isPaused (s : Vlite.PlayerState) :
    (Vlite.Player.play s).1.isPaused = some false := by
  unfold Vlite.Player.play
  dsimp only
  split_ifs <;> rfl

/-- `pause` always reports the player paused. -/
theorem pause_isPaused (s : Vlite.PlayerState) :
    (Vlite.Player.pause s).1.isPaused = some true := by
  unfold Vlite.Player.pause
  dsimp only
  split_ifs <;> rfl

/-- `play` never touches the progress-bar element. -/
theorem play_progressBar (s : Vlite.PlayerState) :
    (Vlite.Player.play s).1.elements.progressBar = s.elements.progressBar := by
  unfold Vlite.Player.play
  dsimp only
  split_ifs <;> rfl

/-- `play` never touches the time label. -/
theorem play_currentTimeText (s : Vlite.PlayerState) :
    (Vlite.Player.play s).1.elements.currentTimeText = s.elements.currentTimeText := by
  unfold Vlite.Player.play
  dsimp only
  split_ifs <;> rfl

/-- `play` keeps the poster reference present (it at most edits its class list). -/
theorem play_posterClasses_isSome (s : Vlite.PlayerState) :
    (Vlite.Player.play s).1.elements.posterClasses.isSome =
      s.elements.posterClasses.isSome := by
  unfold Vlite.Player.play
  dsimp only
  split_ifs <;> simp

/-- The effect trace of `play`: the adapter call first, then the auto-hide
handshake, then the `play` event. -/
theorem play_snd (s : Vlite.PlayerState) :
    ∃ rest : List Vlite.Effect,
      (Vlite.Player.play s).2 = .adapter .methodPlay :: rest := by
  unfold Vlite.Player.play
  dsimp only
  split_ifs <;> exact ⟨_, rfl⟩

/-- `play` leaves the options untouched. -/
theorem play_options (s : Vlite.PlayerState) :
    (Vlite.Player.play s).1.options = s.options := by
  unfold Vlite.Player.play
  dsimp only
  split_ifs <;> rfl

/-- `classAdd` guarantees membership of the added class. -/
theorem mem_classAdd (l : List String) (c : String) : c ∈ Vlite.classAdd l c := by
  unfold Vlite.classAdd
  split
  · assumption
  · simp

/-- `setVolume` never touches `isPaused`. -/
theorem setVolume_isPaused (s : Vlite.PlayerState) (v : ℚ) :
    (Vlite.Player.setVolume s v).1.isPaused = s.isPaused := by
  unfold Vlite.Player.setVolume
  split_ifs <;> rfl

/-- `mute` never touches `isPaused`. -/
theorem mute_isPaused (s : Vlite.PlayerState) :
    (Vlite.Player.mute s).1.isPaused = s.isPaused := rfl

/-- `unMute` never touches `isPaused`. -/
theorem unMute_isPaused (s : Vlite.PlayerState) :
    (Vlite.Player.unMute s).1.isPaused = s.isPaused := rfl

/-- The loading bridge never touches `isPaused`. -/
theorem loading_isPaused (s : Vlite.PlayerState) (b : Bool) :
    (Vlite.Player.loading s b).1.isPaused = s.isPaused := rfl

/-- `onTimeUpdate` never touches `isPaused`. -/
theorem onTimeUpdate_isPaused (s : Vlite.PlayerState) (ct dur : Except Unit ℚ) :
    (Vlite.Player.onTimeUpdate s ct dur).1.isPaused = s.isPaused := by
  unfold Vlite.Player.onTimeUpdate
  dsimp only
  repeat' split
  all_goals rfl

/-- `requestFullscreen` never touches `isPaused`. -/
theorem requestFullscreen_isPaused (s : Vlite.PlayerState) :
    (Vlite.Player.requestFullscreen s).1.isPaused = s.isPaused := by
  unfold Vlite.Player.requestFullscreen
  dsimp only
  split_ifs <;> rfl

/-- `exitFullscreen` never touches `isPaused`. -/
theorem exitFullscreen_isPaused (s : Vlite.PlayerState) (esc : Bool) :
    (Vlite.Player.exitFullscreen s esc).1.isPaused = s.isPaused := by
  unfold Vlite.Player.exitFullscreen
  dsimp only
  split_ifs <;> rfl

/-- Listener registration never touches `isPaused`. -/
theorem on_isPaused (s : Vlite.PlayerState) (t : String) (fn : Bool) (l : Nat) :
    (Vlite.Player.«on» s t fn l).isPaused = s.isPaused := by
  unfold Vlite.Player.«on»
  dsimp only
  split_ifs <;> rfl

/-- `onVideoEnded` reports unpaused when looping (it replays via `play`) and
otherwise leaves `isPaused` alone. -/
theorem onVideoEnded_isPaused (s : Vlite.PlayerState) :
    (Vlite.Player.onVideoEnded s).1.isPaused =
      if s.options.loop = true then some false else s.isPaused := by
  unfold Vlite.Player.onVideoEnded
  dsimp only
  repeat' split
  all_goals simp_all [play_isPaused]

/-- `onPlayerReady` reports unpaused when autoplaying and otherwise leaves
`isPaused` alone. -/
theorem onPlayerReady_isPaused (s : Vlite.PlayerState) :
    (Vlite.Player.onPlayerReady s).1.isPaused =
      if s.options.autoplay = true then some false else s.isPaused := by
  unfold Vlite.Player.onPlayerReady
  dsimp only
  repeat' split
  all_goals simp_all [loading_isPaused, play_isPaused]

/-- `destroy` pauses, so it reports paused. -/
theorem destroy_isPaused (s : Vlite.PlayerState) :
    (Vlite.Player.destroy s).1.isPaused = some true := by
  unfold Vlite.Player.destroy
  dsimp only
  simp [pause_isPaused]

/-- C4 counterexample: on a freshly constructed player with `autoplay` off,
`onPlayerReady` completes without ever assigning `isPaused`, which therefore
remains `null` after the backend has signalled readiness — refuting "from the
moment the backend signals readiness onward it is always a boolean". -/
theorem C4_isPaused_null_after_ready_counterexample :
    Vlite.freshState.options.autoplay = false ∧
    (Vlite.Player.onPlayerReady Vlite.freshState).1.isPaused = none := by
  refine ⟨rfl, ?_⟩
  rw [onPlayerReady_isPaused]
  rfl

/-- C4 (amended): `isPaused` is `null` from construction until the first
`play()` or `pause()` assigns it; `onPlayerReady` makes it boolean only when
the `autoplay` option is set (via the `play` it triggers); and once boolean
it is never reset to `null` by any subsequent operation of the player. -/
theorem C4_isPaused_lifecycle :
    (∀ (typ : String) (opts : Vlite.Options) (el : Vlite.Elements)
       (m r d a f : Bool),
       (Vlite.Player.construct typ opts el m r d a f).isPaused = none) ∧
    (∀ s : Vlite.PlayerState, (Vlite.Player.play s).1.isPaused = some false) ∧
    (∀ s : Vlite.PlayerState, (Vlite.Player.pause s).1.isPaused = some true) ∧
    (∀ s : Vlite.PlayerState, s.options.autoplay = true →
       (Vlite.Player.onPlayerReady s).1.isPaused = some false) ∧
    (∀ (s : Vlite.PlayerState) (op : Vlite.Player.Op),
       s.isPaused ≠ none → (Vlite.Player.step s op).1.isPaused ≠ none) := by
  refine ⟨fun _ _ _ _ _ _ _ _ => rfl, play_isPaused, pause_isPaused, ?_, ?_⟩
  · intro s h
    rw [onPlayerReady_isPaused, h]
    rfl
  · intro s op h
    cases op with
    | play => simp [Vlite.Player.step, play_isPaused]
    | pause => simp [Vlite.Player.step, pause_isPaused]
    | setVolume v => simpa [Vlite.Player.step, setVolume_isPaused] using h
    | mute => simpa [Vlite.Player.step, mute_isPaused] using h
    | unMute => simpa [Vlite.Player.step, unMute_isPaused] using h
    | seekTo t => simpa [Vlite.Player.step] using h
    | onVideoEnded =>
        rw [Vlite.Player.step, onVideoEnded_isPaused]
        split
        · simp
        · simpa using h
    | onPlayerReady =>
        rw [Vlite.Player.step, onPlayerReady_isPaused]
        split
        · simp
        · simpa using h
    | onTimeUpdate ct dur =>
        simpa [Vlite.Player.step, onTimeUpdate_isPaused] using h
    | requestFullscreen =>
        simpa [Vlite.Player.step, requestFullscreen_isPaused] using h
    | exitFullscreen esc =>
        simpa [Vlite.Player.step, exitFullscreen_isPaused] using h
    | «on» t fn l => simpa [Vlite.Player.step, on_isPaused] using h
    | dispatchEvent t => simpa [Vlite.Player.step] using h
    | loading b => simpa [Vlite.Player.step, loading_isPaused] using h
    | destroy => simp [Vlite.Player.step, destroy_isPaused]

/-- Witness for C4 (amended): the preservation clause applied to a concrete
playing state and a volume operation, and the autoplay clause on a concrete
autoplaying state. -/
theorem C4_isPaused_lifecycle_witness :
    (Vlite.Player.step Vlite.playingState (.setVolume (1/2))).1.isPaused ≠ none ∧
    (Vlite.Player.onPlayerReady
      { Vlite.freshState with
          options := { Vlite.demoOptions with autoplay := true } }).1.isPaused =
      some false :=
  ⟨C4_isPaused_lifecycle.2.2.2.2 Vlite.playingState (.setVolume (1/2)) (by decide),
   C4_isPaused_lifecycle.2.2.2.1
     { Vlite.freshState with
         options := { Vlite.demoOptions with autoplay := true } } rfl⟩

/-- The effect trace of `onVideoEnded`: the replay effects when looping,
then the `ended` dispatch. -/
theorem onVideoEnded_snd (s : Vlite.PlayerState) :
    (Vlite.Player.onVideoEnded s).2 =
      (if s.options.loop = true then (Vlite.Player.play s).2 else []) ++
        [Vlite.Effect.event "ended"] := by
  unfold Vlite.Player.onVideoEnded
  dsimp only
  repeat' split
  all_goals simp_all

/-- `onVideoEnded` resets a present progress bar to zero and removes its
`aria-valuenow`, whether or not the player loops. -/
theorem onVideoEnded_progressBar (s : Vlite.PlayerState)
    (h : s.elements.progressBar.isSome = true) :
    (Vlite.Player.onVideoEnded s).1.elements.progressBar =
      some { value := "0", cssValue := "0%", ariaValuenow := none } := by
  unfold Vlite.Player.onVideoEnded
  dsimp only
  repeat' split
  all_goals simp_all [play_progressBar]

/-- `onVideoEnded` resets a present time label to `"00:00"`, whether or not
the player loops. -/
theorem onVideoEnded_currentTimeText (s : Vlite.PlayerState)
    (h : s.elements.currentTimeText.isSome = true) :
    (Vlite.Player.onVideoEnded s).1.elements.currentTimeText = some "00:00" := by
  unfold Vlite.Player.onVideoEnded
  dsimp only
  repeat' split
  all_goals simp_all [play_currentTimeText, play_progressBar]

/-- `onVideoEnded` re-shows a configured, present poster, whether or not the
player loops. -/
theorem onVideoEnded_poster (s : Vlite.PlayerState)
    (hp : Vlite.optStrTruthy s.options.poster = true)
    (hs : s.elements.posterClasses.isSome = true) :
    "v-active" ∈ (Vlite.Player.onVideoEnded s).1.elements.posterClasses.getD [] := by
  unfold Vlite.Player.onVideoEnded
  dsimp only
  repeat' split
  all_goals
    simp_all [play_options, play_posterClasses_isSome, play_progressBar,
      play_currentTimeText, mem_classAdd, Option.isSome_iff_exists]
  all_goals obtain ⟨a, ha⟩ := hs
  all_goals
    first
    | simp [ha, mem_classAdd]
    | (have hb := play_posterClasses_isSome s
       rw [ha] at hb
       simp only [Option.isSome_some] at hb
       obtain ⟨b, hb2⟩ := Option.isSome_iff_exists.mp hb
       simp [hb2, mem_classAdd])

/-- When looping, `onVideoEnded`'s container state is exactly the one `play`
produces — the paused+first-start transition of the non-loop branch is not
applied. -/
theorem onVideoEnded_container_loop (s : Vlite.PlayerState)
    (hl : s.options.loop = true) :
    (Vlite.Player.onVideoEnded s).1.elements.containerClasses =
      (Vlite.Player.play s).1.elements.containerClasses := by
  unfold Vlite.Player.onVideoEnded
  dsimp only
  repeat' split
  all_goals simp_all

/-- C5: `onVideoEnded` with the `loop` option true results in a subsequent
play invocation on the adapter (`methodPlay` appears in the effect trace);
with `loop` false, a present progress indicator is reset to value `"0"`, a
present current-time label is reset to `"00:00"`, and exactly the `ended`
event is dispatched. -/
theorem C5_onVideoEnded_loop_play_or_reset (s : Vlite.PlayerState) :
    (s.options.loop = true →
       Vlite.Effect.adapter .methodPlay ∈ (Vlite.Player.onVideoEnded s).2) ∧
    (s.options.loop = false →
       (s.elements.progressBar.isSome = true →
          (Vlite.Player.onVideoEnded s).1.elements.progressBar =
            some { value := "0", cssValue := "0%", ariaValuenow := none }) ∧
       (s.elements.currentTimeText.isSome = true →
          (Vlite.Player.onVideoEnded s).1.elements.currentTimeText = some "00:00") ∧
       (Vlite.Player.onVideoEnded s).2 = [Vlite.Effect.event "ended"]) := by
  constructor
  · intro hl
    rw [onVideoEnded_snd, if_pos hl]
    obtain ⟨rest, hr⟩ := play_snd s
    rw [hr]
    simp
  · intro hl
    refine ⟨onVideoEnded_progressBar s, onVideoEnded_currentTimeText s, ?_⟩
    rw [onVideoEnded_snd, hl]
    simp

/-- Witness for C5: the loop branch on a concrete looping state and the
reset branch on a concrete non-looping state. -/
theorem C5_onVideoEnded_loop_play_or_reset_witness :
    Vlite.Effect.adapter .methodPlay ∈
      (Vlite.Player.onVideoEnded Vlite.loopPosterState).2 ∧
    (Vlite.Player.onVideoEnded Vlite.playingState).1.elements.progressBar =
      some { value := "0", cssValue := "0%", ariaValuenow := none } ∧
    (Vlite.Player.onVideoEnded Vlite.playingState).1.elements.currentTimeText =
      some "00:00" ∧
    (Vlite.Player.onVideoEnded Vlite.playingState).2 = [Vlite.Effect.event "ended"] :=
  ⟨(C5_onVideoEnded_loop_play_or_reset Vlite.loopPosterState).1 rfl,
   ((C5_onVideoEnded_loop_play_or_reset Vlite.playingState).2 rfl).1 rfl,
   ((C5_onVideoEnded_loop_play_or_reset Vlite.playingState).2 rfl).2.1 rfl,
   ((C5_onVideoEnded_loop_play_or_reset Vlite.playingState).2 rfl).2.2⟩

/-- C6 counterexample: on a concrete looping player with a configured poster,
`onVideoEnded` *does* re-show the poster (`v-active` is added) and *does*
reset the progress indicator and the time label — the poster re-show and the
zero-reset sit outside the `else`, so they run in the loop case too,
refuting "the poster is not re-shown, and the progress indicator and time
label are not reset to zero". -/
theorem C6_loop_still_resets_counterexample :
    Vlite.loopPosterState.options.loop = true ∧
    (Vlite.Player.onVideoEnded Vlite.loopPosterState).1.elements.posterClasses =
      some ["v-poster", "v-active"] ∧
    (Vlite.Player.onVideoEnded Vlite.loopPosterState).1.elements.progressBar =
      some { value := "0", cssValue := "0%", ariaValuenow := none } ∧
    (Vlite.Player.onVideoEnded Vlite.loopPosterState).1.elements.currentTimeText =
      some "00:00" := by decide

/-- C6 (amended): when the `loop` option is true, `onVideoEnded` replays from
the start and skips only the container's paused+first-start transition (the
container class set is exactly what `play` produces, and the effect trace is
the replay followed by `ended`); the poster re-show (when configured and
present) and the zeroing of the progress indicator and time label still
happen, as they are unconditional. -/
theorem C6_loop_replays_but_still_resets (s : Vlite.PlayerState)
    (hl : s.options.loop = true) :
    (Vlite.Player.onVideoEnded s).1.elements.containerClasses =
      (Vlite.Player.play s).1.elements.containerClasses ∧
    (Vlite.Player.onVideoEnded s).2 =
      (Vlite.Player.play s).2 ++ [Vlite.Effect.event "ended"] ∧
    (Vlite.optStrTruthy s.options.poster = true →
       s.elements.posterClasses.isSome = true →
       "v-active" ∈ (Vlite.Player.onVideoEnded s).1.elements.posterClasses.getD []) ∧
    (s.elements.progressBar.isSome = true →
       (Vlite.Player.onVideoEnded s).1.elements.progressBar =
         some { value := "0", cssValue := "0%", ariaValuenow := none }) ∧
    (s.elements.currentTimeText.isSome = true →
       (Vlite.Player.onVideoEnded s).1.elements.currentTimeText = some "00:00") := by
  refine ⟨onVideoEnded_container_loop s hl, ?_,
    fun hp hs => onVideoEnded_poster s hp hs,
    onVideoEnded_progressBar s, onVideoEnded_currentTimeText s⟩
  rw [onVideoEnded_snd, if_pos hl]

/-- Witness for C6 (amended) on the concrete looping state with poster. -/
theorem C6_loop_replays_but_still_resets_witness :
    (Vlite.Player.onVideoEnded Vlite.loopPosterState).1.elements.containerClasses =
      (Vlite.Player.play Vlite.loopPosterState).1.elements.containerClasses ∧
    "v-active" ∈
      (Vlite.Player.onVideoEnded Vlite.loopPosterState).1.elements.posterClasses.getD [] ∧
    (Vlite.Player.onVideoEnded Vlite.loopPosterState).1.elements.progressBar =
      some { value := "0", cssValue := "0%", ariaValuenow := none } :=
  ⟨(C6_loop_replays_but_still_resets Vlite.loopPosterState rfl).1,
   (C6_loop_replays_but_still_resets Vlite.loopPosterState rfl).2.2.1 rfl rfl,
   (C6_loop_replays_but_still_resets Vlite.loopPosterState rfl).2.2.2.1 rfl⟩
